import Mathlib

/-!
Verification of the XFB startup orchestrator (src/src/main.cpp).

The whole repository is a single bootstrap routine: provision a per-user
configuration file from a bundled default, load preferences, resolve the
locale, apply a theme (palette + stylesheet) and show the main window.
We embed the routine as a pure function from an environment (the oracles
for the platform location query, the filesystem, resource loads and the
INI parse) to an outcome (process exit or entry into the event loop)
paired with a trace of the observable effects, and prove the specified
properties of that function.
-/

namespace XFB

/-- An RGB color, as constructed by QColor(r, g, b). -/
structure Color where
  r : Nat
  g : Nat
  b : Nat
deriving DecidableEq, Repr

/-- The palette roles set by main.cpp (QPalette color roles). -/
inductive Role where
  | Window
  | WindowText
  | Base
  | AlternateBase
  | ToolTipBase
  | ToolTipText
  | Text
  | Button
  | ButtonText
  | BrightText
  | Highlight
  | HighlightedText
deriving DecidableEq, Repr

/-- Observable effects of the bootstrap sequence, in program order. -/
inductive Event where
  | putEnvVar (key value : String)
  | setDesktopSettingsAware (b : Bool)
  | appConstructed
  | setWindowIcon (path : String)
  | setAppName (name : String)
  | setOrgName (name : String)
  | setStyle (style : String)
  | splashShow
  | splashMessage (msg : String)
  | processEvents
  | splashHide
  | criticalDialog (title msg : String)
  | mkdirAttempt (path : String)
  | copyFile (src dst : String)
  | setPermissions (path : String) (mask : Nat)
  | settingsLoad (path : String)
  | translatorLoadAttempt (res : String)
  | installTranslator
  | logWarning (msg : String)
  | sleep (ms : Nat)
  | setPalette (table : List (Role × Color))
  | setStyleSheet (sheet : String)
  | windowConstructed
  | showFullScreen
  | showWindowed
  | splashFinish
  | execEventLoop
deriving DecidableEq, Repr

/-- Final fate of the bootstrap: process exit with a code, or entry into
the Qt event loop (a.exec()). -/
inductive Outcome where
  | exited (code : Nat)
  | eventLoop
deriving DecidableEq, Repr

/-- A file in the writable filesystem: raw contents and permission mask. -/
structure FileRec where
  contents : String
  perms : Nat
deriving DecidableEq

/-- The writable filesystem, a partial map from paths to files. -/
structure FS where
  files : String → Option FileRec

/-- Permission mask set after a first-run copy:
QFile::ReadOwner, WriteOwner, ReadGroup, ReadOther (0x0644). -/
def copiedPermMask : Nat := 0x0644

/-- The config file name, main.cpp line 58. -/
def configFileName : String := "xfb.conf"

/-- The bundled default config resource path, main.cpp line 83. -/
def resourceConfigPath : String := ":/" ++ configFileName

/-- ConfigProvisioner, main.cpp lines 86-103: if the config file does not
exist at configFilePath, copy the bundled default there and set its
permissions; if the copy fails this is fatal. If the file exists, nothing
happens. Returns (fatal?, events, resulting filesystem). -/
def provisionConfigFile (fs : FS) (configFilePath : String)
    (resourceCopyOk : Bool) (resourceContents : String) :
    Bool × List Event × FS :=
  if (fs.files configFilePath).isSome then
    (false, [], fs)
  else
    let evts0 : List Event :=
      [.splashMessage "Setting up default configuration...", .processEvents]
    if resourceCopyOk then
      let fs2 : FS :=
        ⟨fun p => if p == configFilePath
          then some ⟨resourceContents, copiedPermMask⟩ else fs.files p⟩
      (false,
       evts0 ++ [.copyFile resourceConfigPath configFilePath,
                 .setPermissions configFilePath copiedPermMask],
       fs2)
    else
      (true,
       evts0 ++ [.splashHide,
                 .criticalDialog "Configuration Error"
                   "Could not copy default configuration file."],
       fs)

/-- The typed preference record read by main.cpp lines 112-114. -/
structure SettingsRecord where
  Language : String
  FullScreen : Bool
  DarkMode : Bool
deriving DecidableEq, Repr

/-- ASCII lowercase of a character. -/
def asciiLowerChar (c : Char) : Char :=
  if 65 <= c.toNat && c.toNat <= 90 then Char.ofNat (c.toNat + 32) else c

/-- ASCII lowercase of a string. -/
def asciiLower (s : String) : String :=
  String.mk (s.data.map asciiLowerChar)

/-- QVariant::toBool on a string stored in an INI file: false exactly for
the empty string, "0" and "false" (lower-cased), true otherwise. -/
def variantToBool (s : String) : Bool :=
  let l := asciiLower s
  !(l == "" || l == "0" || l == "false")

/-- Lookup of a key in the parsed key-value view of the config file. -/
def lookupKey (cfg : List (String × String)) (k : String) : Option String :=
  match cfg with
  | [] => none
  | (k0, v0) :: rest => if k0 == k then some v0 else lookupKey rest k

/-- SettingsStore, main.cpp lines 109-114: read each recognized key with
its documented default (Language "en", FullScreen false, DarkMode false). -/
def loadSettings (cfg : List (String × String)) : SettingsRecord :=
  { Language := (lookupKey cfg "Language").getD "en"
  , FullScreen := match lookupKey cfg "FullScreen" with
      | some s => variantToBool s
      | none => false
  , DarkMode := match lookupKey cfg "DarkMode" with
      | some s => variantToBool s
      | none => false }

/-- Translation resource for Portuguese, main.cpp line 124. -/
def portuguesQm : String := ":/portugues.qm"

/-- Translation resource for French, main.cpp line 128. -/
def francesQm : String := ":/frances.qm"

/-- LocaleResolver load phase, main.cpp lines 119-133: for "pt" and "fr"
a fixed translation resource is loaded (success given by the loadOk
oracle); every other code, including the default "en", attempts no load.
Returns (attempted resource, translatorLoaded, events). -/
def translatorLoad (idioma : String) (loadOk : String → Bool) :
    Option String × Bool × List Event :=
  if idioma == "pt" then
    (some portuguesQm, loadOk portuguesQm,
     [.splashMessage "Loading Portuguese GUI...", .processEvents,
      .translatorLoadAttempt portuguesQm])
  else if idioma == "fr" then
    (some francesQm, loadOk francesQm,
     [.splashMessage "Loading French GUI...", .processEvents,
      .translatorLoadAttempt francesQm])
  else
    (none, false,
     [.splashMessage "Loading English GUI...", .processEvents])

/-- Warning path after a failed translator load, main.cpp lines 138-141:
a logged warning, a red splash message, and a 1500 ms pause so the user
can perceive it. -/
def localeWarnEvents (idioma : String) : List Event :=
  [.logWarning ("Failed to load translator file for language: " ++ idioma),
   .splashMessage "Failed to load translation!",
   .sleep 1500]

/-- LocaleResolver install phase, main.cpp lines 135-144: install the
translator when a non-default language loaded, warn when a non-default
language failed to load, do nothing for the default language.
Returns (installed, events). -/
def translatorInstallPhase (idioma : String) (translatorLoaded : Bool) :
    Bool × List Event :=
  if idioma != "en" && translatorLoaded then
    (true, [.installTranslator])
  else if idioma != "en" && !translatorLoaded then
    (false, localeWarnEvents idioma)
  else
    (false, [])

/-- The dark palette table, main.cpp lines 155-166, in source order. -/
def darkPaletteTable : List (Role × Color) :=
  [ (.Window, ⟨30, 30, 46⟩)
  , (.WindowText, ⟨205, 214, 244⟩)
  , (.Base, ⟨24, 24, 37⟩)
  , (.AlternateBase, ⟨30, 30, 46⟩)
  , (.ToolTipBase, ⟨205, 214, 244⟩)
  , (.ToolTipText, ⟨30, 30, 46⟩)
  , (.Text, ⟨205, 214, 244⟩)
  , (.Button, ⟨49, 50, 68⟩)
  , (.ButtonText, ⟨205, 214, 244⟩)
  , (.BrightText, ⟨255, 0, 0⟩)
  , (.Highlight, ⟨137, 180, 250⟩)
  , (.HighlightedText, ⟨30, 30, 46⟩) ]

/-- The light palette table, main.cpp lines 173-184, in source order. -/
def lightPaletteTable : List (Role × Color) :=
  [ (.Window, ⟨239, 241, 245⟩)
  , (.WindowText, ⟨76, 79, 105⟩)
  , (.Base, ⟨255, 255, 255⟩)
  , (.AlternateBase, ⟨239, 241, 245⟩)
  , (.ToolTipBase, ⟨76, 79, 105⟩)
  , (.ToolTipText, ⟨255, 255, 255⟩)
  , (.Text, ⟨76, 79, 105⟩)
  , (.Button, ⟨230, 233, 239⟩)
  , (.ButtonText, ⟨76, 79, 105⟩)
  , (.BrightText, ⟨255, 0, 0⟩)
  , (.Highlight, ⟨30, 102, 245⟩)
  , (.HighlightedText, ⟨255, 255, 255⟩) ]

/-- Dark stylesheet resource, main.cpp line 168. -/
def darkStyleSheetPath : String := ":/resources/darkstylesheet.qss"

/-- Light stylesheet resource, main.cpp line 186. -/
def lightStyleSheetPath : String := ":/resources/stylesheet.qss"

/-- ThemeApplier selection, main.cpp lines 152-188: the DarkMode flag
selects one of the two fixed palette tables and the matching stylesheet
resource path. -/
def themeSelect (darkMode : Bool) : List (Role × Color) × String :=
  if darkMode then (darkPaletteTable, darkStyleSheetPath)
  else (lightPaletteTable, lightStyleSheetPath)

/-- Stylesheet application, main.cpp lines 190-199: open and apply the
stylesheet if possible, otherwise log a warning and continue. -/
def applyStylesheet (qssFilePath : String)
    (openOk : String → Bool) (readContents : String → String) : List Event :=
  if openOk qssFilePath then
    [.setStyleSheet (readContents qssFilePath)]
  else
    [.logWarning ("Could not open main stylesheet file: " ++ qssFilePath)]

/-- The environment of one bootstrap run: the oracles for every external
query main.cpp makes. -/
structure Env where
  writableConfigPath : String
  dirAlreadyExists : Bool
  mkpathOk : Bool
  fs : FS
  resourceCopyOk : Bool
  resourceContents : String
  parseIni : String → List (String × String)
  qmLoadOk : String → Bool
  qssOpenOk : String → Bool
  qssReadContents : String → String

/-- Events of main.cpp lines 20-55, before configuration handling. -/
def preEvents : List Event :=
  [ .putEnvVar "QT_MULTIMEDIA_PREFERRED_PLUGINS" "gstreamer"
  , .putEnvVar "QT_ACCESSIBILITY" "1"
  , .setDesktopSettingsAware false
  , .appConstructed
  , .setWindowIcon ":/Resources/48x48.png"
  , .setAppName "XFB"
  , .setOrgName "Netpack - Online Solutions"
  , .setStyle "Fusion"
  , .splashShow
  , .splashMessage "Initializing..."
  , .processEvents ]

/-- Contents of the file at a path, empty when absent (QSettings on a
missing file behaves as an empty settings file). -/
def fileContentsAt (fs : FS) (path : String) : String :=
  match fs.files path with
  | some f => f.contents
  | none => ""

/-- The whole bootstrap of main.cpp lines 17-221 as one function from the
environment to the outcome and the trace of observable effects. -/
def bootstrap (env : Env) : Outcome × List Event :=
  if env.writableConfigPath == "" then
    (.exited 1,
     preEvents ++
       [.splashHide,
        .criticalDialog "Configuration Error"
          "Cannot find writable location for configuration."])
  else
    let dirEvts : List Event :=
      if env.dirAlreadyExists then []
      else [.mkdirAttempt env.writableConfigPath]
    if !env.dirAlreadyExists && !env.mkpathOk then
      (.exited 1,
       preEvents ++ dirEvts ++
         [.splashHide,
          .criticalDialog "Configuration Error"
            ("Could not create configuration directory:\n" ++
             env.writableConfigPath)])
    else
      let configFilePath := env.writableConfigPath ++ "/" ++ configFileName
      let pr := provisionConfigFile env.fs configFilePath
        env.resourceCopyOk env.resourceContents
      if pr.1 then
        (.exited 1, preEvents ++ dirEvts ++ pr.2.1)
      else
        let cfg := env.parseIni (fileContentsAt pr.2.2 configFilePath)
        let settings := loadSettings cfg
        let settingsEvts : List Event :=
          [.splashMessage "Loading settings...", .processEvents,
           .settingsLoad configFilePath]
        let tl := translatorLoad settings.Language env.qmLoadOk
        let ip := translatorInstallPhase settings.Language tl.2.1
        let theme := themeSelect settings.DarkMode
        let themeEvts : List Event :=
          [.splashMessage "Applying theme...", .processEvents,
           .setPalette theme.1]
        let qssEvts := applyStylesheet theme.2 env.qssOpenOk env.qssReadContents
        let windowEvts : List Event :=
          [.splashMessage "Loading main window...", .processEvents,
           .windowConstructed,
           .splashMessage "XFB is Ready!", .sleep 300]
        let showEvt : Event :=
          if settings.FullScreen then .showFullScreen else .showWindowed
        (.eventLoop,
         preEvents ++ dirEvts ++ pr.2.1 ++ settingsEvts ++ tl.2.2 ++ ip.2 ++
           themeEvts ++ qssEvts ++ windowEvts ++
           [showEvt, .splashFinish, .execEventLoop])

/-- The settings record the bootstrap reads, as a function of the
environment: the parse of the provisioned config file at its path. -/
def bootSettings (env : Env) : SettingsRecord :=
  let configFilePath := env.writableConfigPath ++ "/" ++ configFileName
  let pr := provisionConfigFile env.fs configFilePath
    env.resourceCopyOk env.resourceContents
  loadSettings (env.parseIni (fileContentsAt pr.2.2 configFilePath))

/-- Events belonging to the stages after configuration provisioning:
settings loading, locale resolution, theme application and window work. -/
def isLaterStage : Event → Bool
  | .settingsLoad _ => true
  | .translatorLoadAttempt _ => true
  | .installTranslator => true
  | .setPalette _ => true
  | .setStyleSheet _ => true
  | .windowConstructed => true
  | .showFullScreen => true
  | .showWindowed => true
  | _ => false

/-- Events showing the main window. -/
def isShowEvent : Event → Bool
  | .showFullScreen => true
  | .showWindowed => true
  | _ => false

/-- Events applying a palette. -/
def isSetPalette : Event → Bool
  | .setPalette _ => true
  | _ => false

/-- Events applying a stylesheet. -/
def isSetStyleSheet : Event → Bool
  | .setStyleSheet _ => true
  | _ => false

/-- A filesystem already holding a user-edited config file. -/
def fsWithConfig : FS :=
  ⟨fun p => if p == "/home/user/.config/XFB/xfb.conf"
    then some ⟨"Language=pt", 0x0644⟩ else none⟩

/-- A concrete environment whose bootstrap succeeds: a fresh install with
a FullScreen=true default config, failing translator loads and a missing
stylesheet. -/
def envOkW : Env :=
  { writableConfigPath := "/home/user/.config/XFB"
  , dirAlreadyExists := true
  , mkpathOk := true
  , fs := ⟨fun _ => none⟩
  , resourceCopyOk := true
  , resourceContents := "FullScreen=true"
  , parseIni := fun s =>
      if s == "FullScreen=true" then [("FullScreen", "true")] else []
  , qmLoadOk := fun _ => false
  , qssOpenOk := fun _ => false
  , qssReadContents := fun _ => "" }

/-- A concrete environment where the config directory is missing and
cannot be created. -/
def envDirFailW : Env :=
  { envOkW with dirAlreadyExists := false, mkpathOk := false }

/-- A concrete environment where the platform reports no writable config
location. -/
def envLocFailW : Env :=
  { envOkW with writableConfigPath := "" }

/-- The trace of a run that reaches the event loop, as a function of the
environment (the success branch of bootstrap, spelled out). -/
def successTrace (env : Env) : List Event :=
  let dirEvts : List Event :=
    if env.dirAlreadyExists then []
    else [.mkdirAttempt env.writableConfigPath]
  let configFilePath := env.writableConfigPath ++ "/" ++ configFileName
  let pr := provisionConfigFile env.fs configFilePath
    env.resourceCopyOk env.resourceContents
  let settings := bootSettings env
  let tl := translatorLoad settings.Language env.qmLoadOk
  let ip := translatorInstallPhase settings.Language tl.2.1
  let theme := themeSelect settings.DarkMode
  preEvents ++ dirEvts ++ pr.2.1 ++
    [.splashMessage "Loading settings...", .processEvents,
     .settingsLoad configFilePath] ++
    tl.2.2 ++ ip.2 ++
    [.splashMessage "Applying theme...", .processEvents,
     .setPalette theme.1] ++
    applyStylesheet theme.2 env.qssOpenOk env.qssReadContents ++
    [.splashMessage "Loading main window...", .processEvents,
     .windowConstructed, .splashMessage "XFB is Ready!", .sleep 300] ++
    [(if settings.FullScreen then Event.showFullScreen else Event.showWindowed),
     .splashFinish, .execEventLoop]

/-- Helper: a run reaches the event loop exactly on the success branch,
and there its trace is successTrace. -/
theorem bootstrap_eventLoop_trace (env : Env)
    (h : (bootstrap env).1 = .eventLoop) :
    (bootstrap env).2 = successTrace env := by
  unfold bootstrap at h ⊢
  by_cases hp : (env.writableConfigPath == "") = true
  · simp [hp] at h
  · simp only [Bool.not_eq_true] at hp
    simp only [hp, Bool.false_eq_true, if_false] at h ⊢
    by_cases hd : (!env.dirAlreadyExists && !env.mkpathOk) = true
    · simp [hd] at h
    · simp only [Bool.not_eq_true] at hd
      simp only [hd, Bool.false_eq_true, if_false] at h ⊢
      by_cases hpr : (provisionConfigFile env.fs
          (env.writableConfigPath ++ "/" ++ configFileName)
          env.resourceCopyOk env.resourceContents).1 = true
      · simp [hpr] at h
      · simp only [Bool.not_eq_true] at hpr
        simp only [hpr, Bool.false_eq_true, if_false]
        rfl

/-- Helper: the translator load phase never shows the window, applies a
palette or applies a stylesheet. -/
theorem translatorLoad_no_stage_events (idioma : String)
    (loadOk : String → Bool) :
    (translatorLoad idioma loadOk).2.2.filter isShowEvent = [] ∧
    (translatorLoad idioma loadOk).2.2.filter isSetPalette = [] ∧
    (translatorLoad idioma loadOk).2.2.filter isSetStyleSheet = [] := by
  unfold translatorLoad
  by_cases hpt : (idioma == "pt") = true
  · simp [hpt, isShowEvent, isSetPalette, isSetStyleSheet]
  · by_cases hfr : (idioma == "fr") = true
    · simp [hpt, hfr, isShowEvent, isSetPalette, isSetStyleSheet]
    · simp [hpt, hfr, isShowEvent, isSetPalette, isSetStyleSheet]

/-- Helper: the translator install phase never shows the window, applies
a palette or applies a stylesheet. -/
theorem translatorInstallPhase_no_stage_events (idioma : String)
    (loaded : Bool) :
    (translatorInstallPhase idioma loaded).2.filter isShowEvent = [] ∧
    (translatorInstallPhase idioma loaded).2.filter isSetPalette = [] ∧
    (translatorInstallPhase idioma loaded).2.filter isSetStyleSheet = [] := by
  unfold translatorInstallPhase
  by_cases h1 : (idioma != "en" && loaded) = true
  · simp [h1, isShowEvent, isSetPalette, isSetStyleSheet]
  · by_cases h2 : (idioma != "en" && !loaded) = true
    · simp [h1, h2, localeWarnEvents, isShowEvent, isSetPalette,
        isSetStyleSheet]
    · simp [h1, h2, isShowEvent, isSetPalette, isSetStyleSheet]

/-- Helper: the provisioning events never show the window, apply a
palette or apply a stylesheet. -/
theorem provision_no_stage_events (fs : FS) (path : String)
    (resourceCopyOk : Bool) (resourceContents : String) :
    (provisionConfigFile fs path resourceCopyOk resourceContents).2.1.filter
        isShowEvent = [] ∧
    (provisionConfigFile fs path resourceCopyOk resourceContents).2.1.filter
        isSetPalette = [] ∧
    (provisionConfigFile fs path resourceCopyOk resourceContents).2.1.filter
        isSetStyleSheet = [] := by
  unfold provisionConfigFile
  by_cases he : ((fs.files path).isSome) = true
  · simp [he, isShowEvent, isSetPalette, isSetStyleSheet]
  · by_cases hc : resourceCopyOk = true
    · simp [he, hc, isShowEvent, isSetPalette, isSetStyleSheet]
    · simp [he, hc, isShowEvent, isSetPalette, isSetStyleSheet]

/-- Helper: the stylesheet phase never shows the window or applies a
palette. -/
theorem applyStylesheet_no_stage_events (qssFilePath : String)
    (openOk : String → Bool) (readContents : String → String) :
    (applyStylesheet qssFilePath openOk readContents).filter
        isShowEvent = [] ∧
    (applyStylesheet qssFilePath openOk readContents).filter
        isSetPalette = [] := by
  unfold applyStylesheet
  by_cases ho : openOk qssFilePath = true
  · simp [ho, isShowEvent, isSetPalette]
  · simp [ho, isShowEvent, isSetPalette]

/-- Helper: the directory events never show the window, apply a palette
or apply a stylesheet. -/
theorem dirEvts_no_stage_events (env : Env) :
    (if env.dirAlreadyExists then ([] : List Event)
      else [.mkdirAttempt env.writableConfigPath]).filter isShowEvent = [] ∧
    (if env.dirAlreadyExists then ([] : List Event)
      else [.mkdirAttempt env.writableConfigPath]).filter isSetPalette = [] ∧
    (if env.dirAlreadyExists then ([] : List Event)
      else [.mkdirAttempt env.writableConfigPath]).filter
        isSetStyleSheet = [] := by
  by_cases hd : env.dirAlreadyExists = true
  · simp [hd]
  · simp [hd, isShowEvent, isSetPalette, isSetStyleSheet]

/-- C8: on every run that reaches the event loop, the only window-show
event in the trace is the one selected by the FullScreen preference:
full-screen when the flag is true, windowed when it is false — a pure
function of the flag, uninfluenced by any other state. -/
theorem displayMode_function_of_fullscreen (env : Env)
    (h : (bootstrap env).1 = .eventLoop) :
    (bootstrap env).2.filter isShowEvent =
      [if (bootSettings env).FullScreen
        then Event.showFullScreen else Event.showWindowed] := by
  rw [bootstrap_eventLoop_trace env h]
  unfold successTrace
  simp only [List.filter_append,
    (translatorLoad_no_stage_events _ _).1,
    (translatorInstallPhase_no_stage_events _ _).1,
    (provision_no_stage_events _ _ _ _).1,
    (applyStylesheet_no_stage_events _ _ _).1,
    (dirEvts_no_stage_events _).1]
  by_cases hf : (bootSettings env).FullScreen = true
  · simp [hf, preEvents, isShowEvent]
  · simp only [Bool.not_eq_true] at hf
    simp [hf, preEvents, isShowEvent]

/-- Helper: of the whole success trace, the only palette application is
the single full table selected by the DarkMode flag. -/
theorem trace_filter_setPalette (env : Env)
    (h : (bootstrap env).1 = .eventLoop) :
    (bootstrap env).2.filter isSetPalette =
      [.setPalette (themeSelect (bootSettings env).DarkMode).1] := by
  rw [bootstrap_eventLoop_trace env h]
  unfold successTrace
  simp only [List.filter_append,
    (translatorLoad_no_stage_events _ _).2.1,
    (translatorInstallPhase_no_stage_events _ _).2.1,
    (provision_no_stage_events _ _ _ _).2.1,
    (applyStylesheet_no_stage_events _ _ _).2,
    (dirEvts_no_stage_events _).2.1]
  by_cases hf : (bootSettings env).FullScreen = true
  · simp [hf, preEvents, isSetPalette]
  · simp only [Bool.not_eq_true] at hf
    simp [hf, preEvents, isSetPalette]

/-- C1: if the configuration file already exists at the writable config
path, the ConfigProvisioner step returns the filesystem unchanged with no
events at all — no copy occurs and no permission bits are set — and a
second run on any filesystem in which the file survived the first run
alters nothing either. -/
theorem configProvisioner_idempotent (fs : FS) (path : String)
    (resourceCopyOk : Bool) (resourceContents : String) :
    ((fs.files path).isSome = true →
      provisionConfigFile fs path resourceCopyOk resourceContents =
        (false, [], fs)) ∧
    (∀ fatal evts fs1,
      provisionConfigFile fs path resourceCopyOk resourceContents =
        (fatal, evts, fs1) →
      (fs1.files path).isSome = true →
      provisionConfigFile fs1 path resourceCopyOk resourceContents =
        (false, [], fs1)) := by
  constructor
  · intro h
    simp [provisionConfigFile, h]
  · intro fatal evts fs1 _ h
    simp [provisionConfigFile, h]

/-- Witness for configProvisioner_idempotent at a concrete filesystem. -/
theorem configProvisioner_idempotent_witness :
    provisionConfigFile fsWithConfig "/home/user/.config/XFB/xfb.conf"
        true "default" =
      (false, [], fsWithConfig) :=
  (configProvisioner_idempotent fsWithConfig
    "/home/user/.config/XFB/xfb.conf" true "default").1 (by decide)

/-- C5 counterexample: the claim says the selected color tables have 10
entries, but both the dark and the light table set 12 role colors. -/
theorem paletteTable_ten_entries_false :
    ¬ ((themeSelect true).1.length = 10 ∧
       (themeSelect false).1.length = 10) := by
  decide

/-- C5 amended: theme selection is a pure function of the DarkMode flag,
choosing between two fixed 12-entry tables with matching stylesheet
identifiers, the two tables covering the same roles in the same order,
and on every run that reaches the event loop the selected table is applied
exactly once, in full. -/
theorem themeSelect_pure_selection :
    themeSelect true = (darkPaletteTable, darkStyleSheetPath) ∧
    themeSelect false = (lightPaletteTable, lightStyleSheetPath) ∧
    darkPaletteTable.length = 12 ∧
    lightPaletteTable.length = 12 ∧
    darkPaletteTable.map Prod.fst = lightPaletteTable.map Prod.fst ∧
    (∀ env : Env, (bootstrap env).1 = .eventLoop →
      (bootstrap env).2.filter isSetPalette =
        [.setPalette (themeSelect (bootSettings env).DarkMode).1]) := by
  refine ⟨rfl, rfl, rfl, rfl, rfl, ?_⟩
  intro env h
  exact trace_filter_setPalette env h

/-- C9: a translation load is attempted exactly for the codes "pt" and
"fr", mapped to the fixed resources ":/portugues.qm" and ":/frances.qm";
for every other code, including the default "en", no load is attempted. -/
theorem translatorLoad_attempt_set (idioma : String) (loadOk : String → Bool) :
    (translatorLoad idioma loadOk).1 =
      (if idioma == "pt" then some portuguesQm
       else if idioma == "fr" then some francesQm else none) ∧
    (∀ r, Event.translatorLoadAttempt r ∈ (translatorLoad idioma loadOk).2.2 ↔
      ((idioma = "pt" ∧ r = portuguesQm) ∨
       (idioma = "fr" ∧ r = francesQm))) := by
  unfold translatorLoad
  by_cases hpt : idioma = "pt"
  · subst hpt; simp [portuguesQm, francesQm, eq_comm]
  · by_cases hfr : idioma = "fr"
    · subst hfr; simp [portuguesQm, francesQm, eq_comm]
    · simp [hpt, hfr]

/-- Witness for translatorLoad_attempt_set at the concrete codes "pt"
and "en". -/
theorem translatorLoad_attempt_set_witness :
    (translatorLoad "pt" (fun _ => true)).1 = some portuguesQm ∧
    (translatorLoad "en" (fun _ => true)).1 = none := by
  have h1 := (translatorLoad_attempt_set "pt" (fun _ => true)).1
  have h2 := (translatorLoad_attempt_set "en" (fun _ => true)).1
  constructor
  · rw [h1]; decide
  · rw [h2]; decide

/-- C4: for every non-default language whose translator did not load —
including unsupported codes — nothing is installed, the warning path is
taken (a logged warning, a visible failure message and a 1500 ms pause),
and unknown codes take exactly the same warning path as known codes whose
load failed. -/
theorem localeResolver_fallback_warning (idioma : String)
    (loadOk : String → Bool) (hne : idioma ≠ "en")
    (hfail : (translatorLoad idioma loadOk).2.1 = false) :
    (translatorInstallPhase idioma (translatorLoad idioma loadOk).2.1).1
        = false ∧
    Event.installTranslator ∉
      (translatorInstallPhase idioma (translatorLoad idioma loadOk).2.1).2 ∧
    translatorInstallPhase idioma (translatorLoad idioma loadOk).2.1 =
      (false, localeWarnEvents idioma) ∧
    Event.sleep 1500 ∈ localeWarnEvents idioma ∧
    Event.logWarning
        ("Failed to load translator file for language: " ++ idioma) ∈
      localeWarnEvents idioma ∧
    Event.splashMessage "Failed to load translation!" ∈
      localeWarnEvents idioma ∧
    (∀ other : String, other ≠ "en" →
      translatorInstallPhase other false = (false, localeWarnEvents other)) := by
  rw [hfail]
  refine ⟨?_, ?_, ?_, ?_, ?_, ?_, ?_⟩
  · simp [translatorInstallPhase, hne]
  · simp [translatorInstallPhase, hne, localeWarnEvents]
  · simp [translatorInstallPhase, hne]
  · simp [localeWarnEvents]
  · simp [localeWarnEvents]
  · simp [localeWarnEvents]
  · intro other hother
    simp [translatorInstallPhase, hother]

/-- Witness for localeResolver_fallback_warning at the unsupported code
"xx" with every resource load failing. -/
theorem localeResolver_fallback_warning_witness :
    ("xx" : String) ≠ "en" ∧
    (translatorLoad "xx" (fun _ => false)).2.1 = false ∧
    (translatorInstallPhase "xx"
      (translatorLoad "xx" (fun _ => false)).2.1).1 = false :=
  ⟨by decide, by decide,
    (localeResolver_fallback_warning "xx" (fun _ => false)
      (by decide) (by decide)).1⟩

/-- Helper: a Boolean all-scan over a trace yields pointwise absence of
later-stage events. -/
theorem all_not_later_of (l : List Event)
    (h : (l.all fun e => !isLaterStage e) = true) :
    ∀ e ∈ l, isLaterStage e = false := by
  intro e he
  have hx := List.all_eq_true.mp h e he
  simpa using hx

/-- Helper: provisioning is not fatal when the config file exists or the
bundled default copies successfully. -/
theorem provision_not_fatal (fs : FS) (path : String)
    (resourceCopyOk : Bool) (resourceContents : String)
    (h : ((fs.files path).isSome || resourceCopyOk) = true) :
    (provisionConfigFile fs path resourceCopyOk resourceContents).1
      = false := by
  unfold provisionConfigFile
  by_cases he : (fs.files path).isSome = true
  · simp [he]
  · simp only [Bool.not_eq_true] at he
    simp only [he, Bool.false_or] at h
    simp [he, h]

/-- Helper: whenever the location is available, the directory can be
established and the config file can be established, the bootstrap reaches
the event loop — whatever the config file contains and however it
parses. -/
theorem bootstrap_reaches_eventLoop (env : Env)
    (h1 : env.writableConfigPath ≠ "")
    (h2 : (env.dirAlreadyExists || env.mkpathOk) = true)
    (h3 : ((env.fs.files
        (env.writableConfigPath ++ "/" ++ configFileName)).isSome
      || env.resourceCopyOk) = true) :
    (bootstrap env).1 = .eventLoop := by
  have hp : (env.writableConfigPath == "") = false := by
    simp [h1]
  have hd : (!env.dirAlreadyExists && !env.mkpathOk) = false := by
    cases hb : env.dirAlreadyExists <;> simp_all
  have hpr := provision_not_fatal env.fs
    (env.writableConfigPath ++ "/" ++ configFileName)
    env.resourceCopyOk env.resourceContents h3
  unfold bootstrap
  simp [hp, hd, hpr]

/-- C3: a config file with none of the recognized keys — in particular an
empty or unparseable one, whose parse is the empty key set — loads as
exactly the all-defaults record, and preference loading is never fatal:
once the config file is established the bootstrap always reaches the
event loop, whatever the file contains. -/
theorem settingsStore_default_completeness :
    (∀ cfg : List (String × String),
      lookupKey cfg "Language" = none →
      lookupKey cfg "FullScreen" = none →
      lookupKey cfg "DarkMode" = none →
      loadSettings cfg = ⟨"en", false, false⟩) ∧
    (∀ env : Env, env.writableConfigPath ≠ "" →
      (env.dirAlreadyExists || env.mkpathOk) = true →
      ((env.fs.files
          (env.writableConfigPath ++ "/" ++ configFileName)).isSome
        || env.resourceCopyOk) = true →
      (bootstrap env).1 = .eventLoop) := by
  constructor
  · intro cfg h1 h2 h3
    simp [loadSettings, h1, h2, h3]
  · exact bootstrap_reaches_eventLoop

/-- Witness for settingsStore_default_completeness: a config with only an
unrecognized key loads as all defaults, and a concrete successful
environment reaches the event loop. -/
theorem settingsStore_default_completeness_witness :
    loadSettings [("Other", "1")] = ⟨"en", false, false⟩ ∧
    (bootstrap envOkW).1 = .eventLoop :=
  ⟨settingsStore_default_completeness.1 [("Other", "1")]
      (by decide) (by decide) (by decide),
   settingsStore_default_completeness.2 envOkW
      (by decide) (by decide) (by decide)⟩

/-- C2: if the config directory does not exist and cannot be created, the
bootstrap exits with status 1 and the trace holds no settings load, no
translator work, no palette, no stylesheet, no window construction and no
window show. -/
theorem dirCreateFailure_fatal_ordering (env : Env)
    (h1 : env.dirAlreadyExists = false) (h2 : env.mkpathOk = false) :
    (bootstrap env).1 = .exited 1 ∧
    ∀ e ∈ (bootstrap env).2, isLaterStage e = false := by
  by_cases hp : (env.writableConfigPath == "") = true
  · have hEq : bootstrap env = (.exited 1, preEvents ++
        [.splashHide,
         .criticalDialog "Configuration Error"
           "Cannot find writable location for configuration."]) := by
      unfold bootstrap
      rw [if_pos hp]
    rw [hEq]
    exact ⟨rfl, all_not_later_of _ (by simp [preEvents, isLaterStage])⟩
  · have hEq : bootstrap env = (.exited 1, preEvents ++
        [.mkdirAttempt env.writableConfigPath] ++
        [.splashHide,
         .criticalDialog "Configuration Error"
           ("Could not create configuration directory:\n" ++
            env.writableConfigPath)]) := by
      unfold bootstrap
      simp [hp, h1, h2]
    rw [hEq]
    exact ⟨rfl, all_not_later_of _ (by simp [preEvents, isLaterStage])⟩

/-- Witness for dirCreateFailure_fatal_ordering at a concrete
environment. -/
theorem dirCreateFailure_fatal_ordering_witness :
    (bootstrap envDirFailW).1 = .exited 1 ∧
    ∀ e ∈ (bootstrap envDirFailW).2, isLaterStage e = false :=
  dirCreateFailure_fatal_ordering envDirFailW (by decide) (by decide)

/-- C6: if the platform reports no writable config location, the
bootstrap hides the splash, shows a blocking error dialog and exits with
status 1, before any settings, locale, theme or window work. -/
theorem locationUnavailable_fatal (env : Env)
    (h : env.writableConfigPath = "") :
    (bootstrap env).1 = .exited 1 ∧
    (bootstrap env).2 = preEvents ++
      [.splashHide,
       .criticalDialog "Configuration Error"
         "Cannot find writable location for configuration."] ∧
    ∀ e ∈ (bootstrap env).2, isLaterStage e = false := by
  have hp : (env.writableConfigPath == "") = true := by simp [h]
  have hEq : bootstrap env = (.exited 1, preEvents ++
      [.splashHide,
       .criticalDialog "Configuration Error"
         "Cannot find writable location for configuration."]) := by
    unfold bootstrap
    rw [if_pos hp]
  rw [hEq]
  exact ⟨rfl, rfl, all_not_later_of _ (by simp [preEvents, isLaterStage])⟩

/-- Witness for locationUnavailable_fatal at a concrete environment. -/
theorem locationUnavailable_fatal_witness :
    (bootstrap envLocFailW).1 = .exited 1 ∧
    (bootstrap envLocFailW).2 = preEvents ++
      [.splashHide,
       .criticalDialog "Configuration Error"
         "Cannot find writable location for configuration."] ∧
    ∀ e ∈ (bootstrap envLocFailW).2, isLaterStage e = false :=
  locationUnavailable_fatal envLocFailW (by decide)

/-- C10: on every fatal bootstrap path the trace ends with the splash
being hidden immediately followed by the modal error dialog, so the
splash and the dialog are never visible together. -/
theorem fatal_splash_hidden_before_dialog (env : Env)
    (h : (bootstrap env).1 = .exited 1) :
    ∃ pre t m, (bootstrap env).2 =
      pre ++ [Event.splashHide, Event.criticalDialog t m] := by
  by_cases hp : (env.writableConfigPath == "") = true
  · refine ⟨preEvents, "Configuration Error",
      "Cannot find writable location for configuration.", ?_⟩
    unfold bootstrap
    rw [if_pos hp]
  · by_cases hd : (!env.dirAlreadyExists && !env.mkpathOk) = true
    · refine ⟨preEvents ++
        (if env.dirAlreadyExists then []
         else [.mkdirAttempt env.writableConfigPath]),
        "Configuration Error",
        "Could not create configuration directory:\n" ++
          env.writableConfigPath, ?_⟩
      unfold bootstrap
      simp [hp, hd, List.append_assoc]
    · by_cases he : (env.fs.files
          (env.writableConfigPath ++ "/" ++ configFileName)).isSome = true
      · exfalso
        unfold bootstrap at h
        simp [hp, hd, provisionConfigFile, he] at h
      · by_cases hc : env.resourceCopyOk = true
        · exfalso
          unfold bootstrap at h
          simp [hp, hd, provisionConfigFile, he, hc] at h
        · refine ⟨preEvents ++
            (if env.dirAlreadyExists then []
             else [.mkdirAttempt env.writableConfigPath]) ++
            [.splashMessage "Setting up default configuration...",
             .processEvents],
            "Configuration Error",
            "Could not copy default configuration file.", ?_⟩
          unfold bootstrap
          simp [hp, hd, provisionConfigFile, he, hc, List.append_assoc]

/-- Witness for fatal_splash_hidden_before_dialog at a concrete fatal
environment. -/
theorem fatal_splash_hidden_before_dialog_witness :
    ∃ pre t m, (bootstrap envLocFailW).2 =
      pre ++ [Event.splashHide, Event.criticalDialog t m] :=
  fatal_splash_hidden_before_dialog envLocFailW (by decide)

/-- C7: when the selected stylesheet resource cannot be opened, no
stylesheet is ever applied, a warning is logged, the palette applied
beforehand stays the sole palette application, and startup continues to
window construction. -/
theorem stylesheet_missing_degraded (env : Env)
    (h : (bootstrap env).1 = .eventLoop)
    (hq : env.qssOpenOk (themeSelect (bootSettings env).DarkMode).2
      = false) :
    (bootstrap env).2.filter isSetStyleSheet = [] ∧
    Event.logWarning ("Could not open main stylesheet file: " ++
        (themeSelect (bootSettings env).DarkMode).2) ∈ (bootstrap env).2 ∧
    (bootstrap env).2.filter isSetPalette =
      [.setPalette (themeSelect (bootSettings env).DarkMode).1] ∧
    Event.windowConstructed ∈ (bootstrap env).2 := by
  refine ⟨?_, ?_, trace_filter_setPalette env h, ?_⟩
  · rw [bootstrap_eventLoop_trace env h]
    unfold successTrace
    simp only [List.filter_append,
      (translatorLoad_no_stage_events _ _).2.2,
      (translatorInstallPhase_no_stage_events _ _).2.2,
      (provision_no_stage_events _ _ _ _).2.2,
      (dirEvts_no_stage_events _).2.2]
    by_cases hf : (bootSettings env).FullScreen = true
    · simp [hf, preEvents, isSetStyleSheet, applyStylesheet, hq]
    · simp only [Bool.not_eq_true] at hf
      simp [hf, preEvents, isSetStyleSheet, applyStylesheet, hq]
  · rw [bootstrap_eventLoop_trace env h]
    unfold successTrace
    simp [applyStylesheet, hq]
  · rw [bootstrap_eventLoop_trace env h]
    unfold successTrace
    simp

/-- Witness for stylesheet_missing_degraded at a concrete environment
with an unopenable stylesheet. -/
theorem stylesheet_missing_degraded_witness :
    (bootstrap envOkW).2.filter isSetStyleSheet = [] ∧
    Event.logWarning ("Could not open main stylesheet file: " ++
        (themeSelect (bootSettings envOkW).DarkMode).2) ∈
      (bootstrap envOkW).2 ∧
    (bootstrap envOkW).2.filter isSetPalette =
      [.setPalette (themeSelect (bootSettings envOkW).DarkMode).1] ∧
    Event.windowConstructed ∈ (bootstrap envOkW).2 :=
  stylesheet_missing_degraded envOkW (by decide) (by decide)

/-- Witness for themeSelect_pure_selection: the bootstrap-level conjunct
applied at a concrete successful environment. -/
theorem themeSelect_pure_selection_witness :
    (bootstrap envOkW).2.filter isSetPalette =
      [.setPalette (themeSelect (bootSettings envOkW).DarkMode).1] :=
  themeSelect_pure_selection.2.2.2.2.2 envOkW (by decide)

/-- Witness for displayMode_function_of_fullscreen: the concrete
environment prefers FullScreen=true and the sole show event is
full-screen. -/
theorem displayMode_function_of_fullscreen_witness :
    (bootstrap envOkW).2.filter isShowEvent = [Event.showFullScreen] := by
  have hx := displayMode_function_of_fullscreen envOkW (by decide)
  rw [hx]
  decide

end XFB
